/-
Verification of the Atlas ARGO ingestion workers against their specification.

Shallow embedding of the core operations of apps/workers/src/atlas_workers:
  - the aggregate NetCDF profile parser
    (workers/netcdf_processor/netcdf_aggregate_parser.py, parse_aggregate_profiles)
  - the float sync worker (workers/argo_sync/sync.py, ArgoSyncWorker)
  - the FTP file downloader (workers/ftp_sync/ftp_downloader.py, FTPDownloader)
  - the database upload pipeline (operations.py upload_to_database,
    db/operations.py ArgoDataUploader, db/connector.py NeonDBConnector)

Numeric values carried by the NetCDF arrays are modelled as rationals; a NaN
cell is modelled as `none` of an `Option` since the code only ever tests NaN
with np.isnan and compares finite values. Timestamps are modelled as rational
epoch seconds. Fallible operations return `Except PyError`.
-/
import Mathlib

/-- Python exception values that the modelled code can raise. -/
inductive PyError where
  /-- AttributeError raised by attribute lookup on an object lacking the name. -/
  | attributeError (name : String)
  /-- ValueError, e.g. from int() applied to a non-numeric string. -/
  | valueError (msg : String)
  /-- json.JSONDecodeError raised by json.load on unparsable content. -/
  | jsonDecodeError
deriving DecidableEq, Repr

/-! ## Aggregate profile parser
    (workers/netcdf_processor/netcdf_aggregate_parser.py) -/

/-- One cell of a numpy float array: `none` models NaN, `some v` a finite value. -/
abbrev Cell := Option ℚ

/-- Sentinel filtering applied uniformly to the four sensor variables in
parse_aggregate_profiles: the outer `none` models a variable absent from the
dataset (e.g. `doxy = None` when "DOXY" is not in ds); a NaN cell or a value
that fails `v < 99999` is treated as missing. Mirrors the pattern
`if not np.isnan(t) and t < 99999: temp_val = float(t)`. -/
def sensorVal : Option Cell → Option ℚ
  | none => none
  | some none => none
  | some (some v) => if v < 99999 then some v else none

/-- The depth loop initialises `depth = 0.0` and overwrites it only when the
pressure cell is present, not NaN and below the sentinel:
`if not np.isnan(pres_val) and pres_val < 99999: depth = float(pres_val)`. -/
def depthVal (c : Option Cell) : ℚ := (sensorVal c).getD 0

/-- The five array cells read at one depth level of one profile:
PRES, TEMP, PSAL, DOXY, CHLA. Outer `none` = the variable is absent
from the dataset; `some none` = the cell is NaN. -/
structure LevelCells where
  pres : Option Cell
  temp : Option Cell
  psal : Option Cell
  doxy : Option Cell
  chla : Option Cell
deriving DecidableEq, Repr

/-- One retained measurement dict as built by parse_aggregate_profiles. -/
structure Measurement where
  depth : ℚ
  temperature : Option ℚ
  salinity : Option ℚ
  oxygen : Option ℚ
  chlorophyll : Option ℚ
deriving DecidableEq, Repr

/-- Processing of one depth level in parse_aggregate_profiles: extract the four
sensor values through the sentinel filter, skip the level when all four are
None (`if all(v is None for v in [temp_val, sal_val, oxy_val, chla_val])`),
otherwise emit the measurement dict with the (possibly defaulted) depth. -/
def processLevel (lc : LevelCells) : Option Measurement :=
  let t := sensorVal lc.temp
  let s := sensorVal lc.psal
  let o := sensorVal lc.doxy
  let c := sensorVal lc.chla
  if t = none ∧ s = none ∧ o = none ∧ c = none then none
  else some { depth := depthVal lc.pres, temperature := t, salinity := s,
              oxygen := o, chlorophyll := c }

/-- The inner `for level_idx in range(n_levels)` loop: each level either
appends one measurement or is skipped. -/
def buildMeasurements (levels : List LevelCells) : List Measurement :=
  levels.filterMap processLevel

/-- The running maximum kept by the loop: `max_depth = 0.0` initially, then
`if depth > max_depth: max_depth = depth` after each retained level. -/
def maxDepthAcc (ms : List Measurement) : ℚ :=
  ms.foldl (fun acc m => if m.depth > acc then m.depth else acc) 0

/-- One slot of the outer N_PROF dimension, with the per-profile values the
parser reads: LATITUDE and LONGITUDE cells (none = NaN), the CYCLE_NUMBER
cell (the array holds integral doubles, so it is modelled as an optional
integer with none = NaN), the JULD timestamp already converted to epoch
seconds (none = NaT or a failed conversion), and the rows of the
N_LEVELS dimension. -/
structure ProfileSlot where
  lat : Cell
  lon : Cell
  cycle : Option Int
  juld : Option ℚ
  levels : List LevelCells
deriving DecidableEq, Repr

/-- One entry of the list returned by parse_aggregate_profiles (the
measurements_json field is the serialization of `measurements` and is not
modelled separately). -/
structure ParsedProfile where
  float_id : String
  cycle_number : Int
  profile_time : ℚ
  latitude : ℚ
  longitude : ℚ
  measurements : List Measurement
  max_depth : Option ℚ
  quality_status : String
deriving DecidableEq, Repr

/-- Processing of one profile slot (the body of `for prof_idx in range(n_prof)`):
skip when latitude or longitude is NaN; cycle number falls back to the 1-based
slot index when the cell is NaN; profile_time falls back to the current
processing time `now` when JULD is unusable; build the measurements, skip the
profile when none remain; store `max_depth if max_depth > 0 else None`;
quality_status is DELAYED when the letter D occurs anywhere in the file name
(`"DELAYED" if "D" in file_path.name else "REAL_TIME"`). -/
def processSlot (floatId fileName : String) (now : ℚ) (idx : Nat)
    (slot : ProfileSlot) : Option ParsedProfile :=
  match slot.lat, slot.lon with
  | some lat, some lon =>
    let ms := buildMeasurements slot.levels
    if ms = [] then none
    else some {
      float_id := floatId
      cycle_number := slot.cycle.getD ((idx : Int) + 1)
      profile_time := slot.juld.getD now
      latitude := lat
      longitude := lon
      measurements := ms
      max_depth := if 0 < maxDepthAcc ms then some (maxDepthAcc ms) else none
      quality_status :=
        if fileName.data.contains (Char.ofNat 68) then ("DELAYED") else ("REAL_TIME") }
  | _, _ => none

/-- The dataset handed to parse_aggregate_profiles: `unreadable` models a file
on which xr.open_dataset (or any later array access) raises, `readable` a
dataset whose outer dimension holds the given profile slots. -/
inductive Dataset where
  | unreadable
  | readable (slots : List ProfileSlot)

/-- parse_aggregate_profiles (netcdf_aggregate_parser.py lines 283-483): map
processSlot over the profile slots; the enclosing `try` catches every
exception, logs it, and returns the empty list. -/
def parse_aggregate_profiles (floatId fileName : String) (now : ℚ) :
    Dataset → List ParsedProfile
  | .unreadable => []
  | .readable slots =>
      (slots.enum).filterMap (fun p => processSlot floatId fileName now p.1 p.2)

/-- Following the words of the spec and of claim C8: the maximum of the depth
values over the retained measurements, or none when there are none. -/
def specMaxDepth (ms : List Measurement) : Option ℚ :=
  match ms.map Measurement.depth with
  | [] => none
  | d :: ds => some (ds.foldl max d)

/-! ## Float sync worker (workers/argo_sync/sync.py, ArgoSyncWorker) -/

/-- Outcome of the single HTTP request made for one file by the inner
`_download_file` of ArgoSyncWorker.sync. -/
inductive DlOutcome where
  | ok
  | notFound404
  | otherError
deriving DecidableEq, Repr

/-- `_download_file` returns True only when the streamed GET completes; a 404
is logged as an optional missing file, every other error is logged as a
failure, and both return False. -/
def downloadFileResult : DlOutcome → Bool
  | .ok => true
  | .notFound404 => false
  | .otherError => false

/-- The download outcomes of the four per-float files
[{id}_meta.nc, {id}_tech.nc, {id}_prof.nc, {id}_Rtraj.nc]. -/
structure FloatFiles where
  meta : DlOutcome
  tech : DlOutcome
  prof : DlOutcome
  rtraj : DlOutcome
deriving DecidableEq, Repr

/-- ArgoSyncWorker.sync (sync.py lines 70-115): gathers the four downloads and
returns `success_count >= 1`, i.e. at least one file downloaded. -/
def ArgoSyncWorker.sync (o : FloatFiles) : Bool :=
  let results := [downloadFileResult o.meta, downloadFileResult o.tech,
                  downloadFileResult o.prof, downloadFileResult o.rtraj]
  let success_count := results.count true
  1 ≤ success_count

/-- The manifest tracked by ArgoSyncWorker (sync.py): the default value
`{"downloaded": [], "failed": []}` and the lists mutated by syncAll. -/
structure Manifest where
  downloaded : List String
  failed : List String
deriving DecidableEq, Repr

/-- State of the manifest file on disk as `_load_manifest` observes it:
`missing` models `not manifest_path.exists()`; for an existing file the body
runs `json.load(f)`, which either returns the parsed document or raises
json.JSONDecodeError on corrupt content. -/
inductive ManifestFile where
  | missing
  | corrupt
  | valid (m : Manifest)
deriving DecidableEq, Repr

/-- ArgoSyncWorker._load_manifest (sync.py lines 31-36): return the default
manifest when the file does not exist, otherwise the result of `json.load`;
the function has no exception handler, so on corrupt content the
JSONDecodeError propagates to the caller. (The variant in argo_sync.py
lines 48-53 has the same shape with default `{"files": {}, "last_sync": None}`.) -/
def ArgoSyncWorker.load_manifest : ManifestFile → Except PyError Manifest
  | .missing => .ok { downloaded := [], failed := [] }
  | .corrupt => .error .jsonDecodeError
  | .valid m => .ok m

/-! ### syncAll (sync.py lines 118-206), as an event trace

`syncAll` awaits `asyncio.gather` over all pending floats, then iterates over
the completed results, mutating the manifest, saving it when
`(new_downloads + failed_downloads) % 10 == 0` (the check is skipped for
results that are exceptions, which `continue` early), and saving once more
unconditionally after the loop. The execution is modelled as a list of
events: one download event per completed float result, then the save events
emitted by the bookkeeping loop. Each float result is
`some (float_id, success)` for a normal result of download_with_limit and
`none` for a BaseException result. -/

inductive SyncEvent where
  | download (floatId : String) (success : Bool)
  | saveManifest (m : Manifest)
deriving DecidableEq, Repr

/-- Whether an event is a manifest save. -/
def SyncEvent.isSave : SyncEvent → Bool
  | .saveManifest _ => true
  | .download _ _ => false

/-- Whether an event is a completed float download. -/
def SyncEvent.isDownload : SyncEvent → Bool
  | .download _ _ => true
  | .saveManifest _ => false

/-- The per-result manifest mutation of the syncAll loop: a success is
appended to manifest["downloaded"] and removed from manifest["failed"] when
present; a failure is appended to manifest["failed"]. -/
def manifestStep (m : Manifest) (fid : String) (success : Bool) : Manifest :=
  if success then
    { downloaded := m.downloaded ++ [fid], failed := m.failed.erase fid }
  else
    { downloaded := m.downloaded, failed := m.failed ++ [fid] }

/-- The `for result in results` bookkeeping loop of syncAll: exceptions count
as failed and skip the save check; a normal result mutates the manifest by
manifestStep; the manifest is saved when the processed count hits a multiple
of 10, and unconditionally once after the loop. Only save events are
emitted: the downloads already happened during the gather. -/
def processResults : List (Option (String × Bool)) → Manifest → Nat → Nat →
    List SyncEvent
  | [], m, _, _ => [SyncEvent.saveManifest m]
  | none :: rest, m, newc, failc => processResults rest m newc (failc + 1)
  | some (fid, success) :: rest, m, newc, failc =>
      let m' : Manifest := manifestStep m fid success
      let newc' := if success then newc + 1 else newc
      let failc' := if success then failc else failc + 1
      (if (newc' + failc') % 10 = 0 then [SyncEvent.saveManifest m'] else [])
        ++ processResults rest m' newc' failc'

/-- The download events produced while the gather runs: one per float whose
task completed with a result (order within this phase is immaterial; every
one precedes the bookkeeping loop). -/
def downloadEvents (results : List (Option (String × Bool))) : List SyncEvent :=
  results.filterMap (fun r => r.map (fun p => SyncEvent.download p.1 p.2))

/-- The event trace of one syncAll run over the given completed results,
starting from the manifest loaded at the beginning of the run: all downloads
complete (the awaited gather), then the bookkeeping loop runs. -/
def syncAllTrace (results : List (Option (String × Bool))) (m0 : Manifest) :
    List SyncEvent :=
  downloadEvents results ++ processResults results m0 0 0

/-- The manifest as updated by the full bookkeeping loop (the value written by
the final unconditional `_save_manifest`). -/
def finalManifest (results : List (Option (String × Bool))) (m0 : Manifest) :
    Manifest :=
  results.foldl
    (fun m r =>
      match r with
      | none => m
      | some (fid, success) => manifestStep m fid success)
    m0

/-- A float id is covered by a save within a trace prefix when some saved
manifest in the prefix records it (as downloaded or failed). -/
def savedIn (p : List SyncEvent) (fid : String) : Bool :=
  p.any (fun e =>
    match e with
    | .saveManifest m => fid ∈ m.downloaded ∨ fid ∈ m.failed
    | .download _ _ => false)

/-- Progress lost if the process crashes right after trace prefix `p`: the
completed downloads in `p` that no manifest saved within `p` records. -/
def lostAt (p : List SyncEvent) : Nat :=
  (p.filterMap (fun e =>
    match e with
    | .download fid _ => some fid
    | .saveManifest _ => none)).countP (fun fid => ¬ savedIn p fid)

/-! ## File download retry behaviour
    (workers/ftp_sync/ftp_downloader.py FTPDownloader.download_file and the
    inner _download_file of ArgoSyncWorker.sync) -/

/-- Outcome of one download attempt on the network. `permError` is the
permanent class (FTP error_perm: permission denied / file absent; HTTP 404),
`transientError` the retryable class (timeout, 5xx, connection reset). -/
inductive AttemptOutcome where
  | ok
  | permError
  | transientError
deriving DecidableEq, Repr

/-- The `for attempt in range(self.max_retries)` loop of
FTPDownloader.download_file, starting at a given attempt index with the given
number of attempts remaining: a completed retrbinary returns True; an
error_perm is logged as a warning and an arbitrary exception as an error, and
in both cases the loop falls through to the retry logic (sleep retry_delay,
remove the partial file) and tries again; when the attempts are exhausted the
function returns False. `net i` is the outcome of the i-th attempt. -/
def ftpDownloadFrom (net : Nat → AttemptOutcome) : Nat → Nat → Bool
  | _, 0 => false
  | attempt, remaining + 1 =>
      match net attempt with
      | .ok => true
      | .permError => ftpDownloadFrom net (attempt + 1) remaining
      | .transientError => ftpDownloadFrom net (attempt + 1) remaining

/-- FTPDownloader.download_file (ftp_downloader.py lines 66-121) on a file that
is not already cached: run the attempt loop with max_retries attempts
(constructor default 3). -/
def FTPDownloader.download_file (net : Nat → AttemptOutcome)
    (max_retries : Nat) : Bool :=
  ftpDownloadFrom net 0 max_retries

/-- Number of attempts the FTP loop performs before returning. -/
def ftpAttemptsFrom (net : Nat → AttemptOutcome) : Nat → Nat → Nat
  | _, 0 => 0
  | attempt, remaining + 1 =>
      match net attempt with
      | .ok => 1
      | .permError => 1 + ftpAttemptsFrom net (attempt + 1) remaining
      | .transientError => 1 + ftpAttemptsFrom net (attempt + 1) remaining

/-- The inner `_download_file` of ArgoSyncWorker.sync (sync.py lines 84-106):
a single try around one streamed GET; on HTTPStatusError or any other
exception it returns False. There is no loop, so exactly the first attempt
outcome decides the result. -/
def httpDownloadFile (net : Nat → AttemptOutcome) : Bool :=
  match net 0 with
  | .ok => true
  | .permError => false
  | .transientError => false

/-- Attempts made by the HTTP `_download_file`: the body issues one request and
returns from every branch, so it is one for every network behaviour. -/
def httpDownloadAttempts (_net : Nat → AttemptOutcome) : Nat := 1

/-- A network on which the first attempt fails permanently and every retry
would succeed. -/
def netPermThenOk : Nat → AttemptOutcome :=
  fun i => if i = 0 then .permError else .ok

/-- A network on which the first attempt fails transiently and every retry
would succeed. -/
def netTransientThenOk : Nat → AttemptOutcome :=
  fun i => if i = 0 then .transientError else .ok

/-! ## Database upload pipeline
    (db/operations.py ArgoDataUploader, db/connector.py NeonDBConnector,
    operations.py upload_to_database) -/

/-- Decimal digit value of a character, as the Python int() builtin accepts. -/
def charDigit? (c : Char) : Option Nat :=
  if Char.ofNat 48 ≤ c ∧ c ≤ Char.ofNat 57 then some (c.toNat - 48) else none

/-- Value of a nonempty all-digit character list. -/
def digitsVal? : List Char → Option Nat
  | [] => none
  | cs => (cs.mapM charDigit?).map (fun ds => ds.foldl (fun a d => a * 10 + d) 0)

/-- Model of the Python int() builtin on strings: an optional leading minus
sign followed by decimal digits parses to the integer, anything else raises
ValueError (modelled as none). -/
def pyInt? (s : String) : Option Int :=
  match s.data with
  | [] => none
  | c :: cs =>
      if c = Char.ofNat 45 then (digitsVal? cs).map (fun n => -(n : Int))
      else (digitsVal? (c :: cs)).map (fun n => (n : Int))

/-- The argo_profiles row written by the upsert statements of
ArgoDataUploader.upload_profiles_batch / upload_profile. The measurements
JSONB column is modelled by its abstract document value (the list of
measurement dicts that json.dumps serializes). -/
structure ProfileRow where
  float_id : Int
  cycle : Int
  profile_time : ℚ
  surface_lat : ℚ
  surface_lon : ℚ
  max_depth : Option ℚ
  quality_flag : Option String
  measurements : List Measurement
  created_at : ℚ
deriving DecidableEq, Repr

/-- The argo_profiles table, with (float_id, cycle) as the conflict key of the
ON CONFLICT clause. -/
abbrev ProfilesTable := List ProfileRow

/-- Whether a row matches the conflict key (float_id, cycle). -/
def rowMatchesKey (fid cyc : Int) (r : ProfileRow) : Bool :=
  r.float_id = fid ∧ r.cycle = cyc

/-- Semantics of the statement
`INSERT INTO argo_profiles (...) VALUES (...) ON CONFLICT (float_id, cycle)
DO UPDATE SET profile_time, surface_lat, surface_lon, max_depth, quality_flag,
measurements = EXCLUDED...` used by upload_profiles_batch (db/operations.py
lines 264-281): when a row with the key exists it is updated in place to the
excluded values (created_at is not in the update list and keeps its stored
value), otherwise the row is inserted. -/
def upsertProfileRow (t : ProfilesTable) (r : ProfileRow) : ProfilesTable :=
  if t.any (rowMatchesKey r.float_id r.cycle) then
    t.map (fun row =>
      if rowMatchesKey r.float_id r.cycle row then
        { row with profile_time := r.profile_time, surface_lat := r.surface_lat,
                   surface_lon := r.surface_lon, max_depth := r.max_depth,
                   quality_flag := r.quality_flag,
                   measurements := r.measurements }
      else row)
  else t ++ [r]

/-- models/argo.py ProfileData, the parsed profile handed to the uploader. -/
structure ProfileData where
  float_id : String
  cycle_number : Int
  profile_time : ℚ
  latitude : ℚ
  longitude : ℚ
  measurements : List Measurement
  max_depth : Option ℚ
  quality_status : Option String
deriving DecidableEq, Repr

/-- The row dict built for one profile inside upload_profiles_batch: key from
int(profile.float_id) and cycle_number, the excluded column values from the
profile, created_at from datetime.now() (the `now` parameter). -/
def rowOfProfile (now : ℚ) (fid : Int) (p : ProfileData) : ProfileRow :=
  { float_id := fid, cycle := p.cycle_number, profile_time := p.profile_time,
    surface_lat := p.latitude, surface_lon := p.longitude,
    max_depth := p.max_depth, quality_flag := p.quality_status,
    measurements := p.measurements, created_at := now }

/-- ArgoDataUploader.upload_profiles_batch (db/operations.py lines 223-302):
one connection (hence one transaction) for the whole batch. Each profile is
upserted by the ON CONFLICT statement; `int(profile.float_id)` is evaluated
outside the inner try, so a non-numeric float_id raises out of the loop, the
connection context rolls the transaction back and the function returns 0
leaving the table unchanged. A profile with an empty measurements list omits
the measurements key from its dict, the execute call fails client-side, the
inner except logs a warning and skips that row. Returns the updated table and
the success count. -/
def upload_profiles_batch (now : ℚ) (t : ProfilesTable)
    (profiles : List ProfileData) : ProfilesTable × Nat :=
  if profiles = [] then (t, 0)
  else
    match profiles.mapM (fun p => pyInt? p.float_id) with
    | none => (t, 0)
    | some fids =>
        (fids.zip profiles).foldl
          (fun acc fp =>
            if fp.2.measurements = [] then acc
            else (upsertProfileRow acc.1 (rowOfProfile now fp.1 fp.2), acc.2 + 1))
          (t, 0)

/-- The argo_float_metadata row written by ArgoDataUploader.upload_float_metadata
via NeonDBConnector.upsert_dict (conflict key float_id). Optional columns are
absent from the dict when None (the dict comprehension drops them). -/
structure MetadataRow where
  float_id : Int
  wmo_number : String
  float_type : Option String
  deployment_date : Option ℚ
  deployment_lat : Option ℚ
  deployment_lon : Option ℚ
  status : String
  created_at : ℚ
  updated_at : ℚ
deriving DecidableEq, Repr

/-- The metadata dict handed to upload_to_database (produced by
parse_metadata_file); only the keys upload_to_database reads are modelled. -/
structure MetadataDict where
  float_model : Option String
  launch_date : Option ℚ
  launch_lat : Option ℚ
  launch_lon : Option ℚ
  deployment_status : Option String
deriving DecidableEq, Repr

/-- NeonDBConnector.upsert_dict on argo_float_metadata
(db/connector.py lines 217-259): INSERT ... ON CONFLICT (float_id) DO UPDATE
SET over the columns present in the dict. A column whose value was None is
absent from the dict, hence neither inserted nor updated; on conflict those
columns keep the stored value. -/
def upsertMetadataRow (t : List MetadataRow) (r : MetadataRow) :
    List MetadataRow :=
  if t.any (fun row => row.float_id = r.float_id) then
    t.map (fun row =>
      if row.float_id = r.float_id then
        { row with wmo_number := r.wmo_number,
                   float_type := r.float_type.orElse (fun _ => row.float_type),
                   deployment_date :=
                     r.deployment_date.orElse (fun _ => row.deployment_date),
                   deployment_lat :=
                     r.deployment_lat.orElse (fun _ => row.deployment_lat),
                   deployment_lon :=
                     r.deployment_lon.orElse (fun _ => row.deployment_lon),
                   status := r.status, created_at := r.created_at,
                   updated_at := r.updated_at }
      else row)
  else t ++ [r]

/-- The persistent store touched by upload_to_database: the three tables its
docstring names. -/
structure DBState where
  metadataTable : List MetadataRow
  profilesTable : ProfilesTable
  positionsTable : List ProfileRow
deriving Repr

/-- The methods the class ArgoDataUploader defines (db/operations.py): the
attribute names that a lookup on a db_uploader instance can resolve. -/
def argoDataUploaderMethods : List String :=
  ["upload_float_metadata", "upload_float_position", "upload_position_timeseries",
   "upload_profile", "upload_profiles_batch", "upload_profiles_arrow",
   "update_float_stats", "log_processing", "upload_profile_measurements",
   "upload_float_sensors", "log_file_sync"]

/-- The row dict built by ArgoDataUploader.upload_float_metadata from the
FloatMetadata that upload_to_database constructs: float_id from
int(metadata.float_id), wmo_number the id string, status defaulting to
ACTIVE, created_at from metadata_updated_at (the construction time, here
`now`), updated_at from datetime.now(). -/
def metadataRowOf (fidInt : Int) (floatId : String) (md : MetadataDict)
    (now : ℚ) : MetadataRow :=
  { float_id := fidInt, wmo_number := floatId, float_type := md.float_model,
    deployment_date := md.launch_date, deployment_lat := md.launch_lat,
    deployment_lon := md.launch_lon,
    status := (md.deployment_status.getD ("ACTIVE")),
    created_at := now, updated_at := now }

/-- upload_to_database (operations.py lines 127-211). The flow of the source:
start_transaction opens the connection that every following write reuses;
when metadata is given, upload_float_metadata evaluates int(metadata.float_id)
-- a ValueError on a non-numeric id propagates to the except branch -- and
upserts the metadata row into the open transaction; then line 167 evaluates
`db_uploader.upload_float_profiles`, an attribute lookup on ArgoDataUploader.
The class defines no attribute of that name (see argoDataUploaderMethods and
uploader_lacks_upload_float_profiles), so the lookup raises AttributeError;
the except branch calls rollback_transaction, which discards the pending
metadata upsert (bound below as the unused transaction state), and re-raises.
The committed store is returned unchanged together with the raised error. -/
def upload_to_database (db : DBState) (floatId : String)
    (_profiles : List ProfileData) (metadata : Option MetadataDict) (now : ℚ) :
    Except PyError Nat × DBState :=
  match metadata with
  | some md =>
      match pyInt? floatId with
      | none =>
          (Except.error (PyError.valueError ("invalid literal for int")), db)
      | some fidInt =>
          let _pendingTxn : DBState :=
            { db with metadataTable :=
                (upsertMetadataRow db.metadataTable
                  (metadataRowOf fidInt floatId md now)) }
          (Except.error (PyError.attributeError ("upload_float_profiles")), db)
  | none =>
      (Except.error (PyError.attributeError ("upload_float_profiles")), db)

/-- ArgoDataUploader resolves no attribute named upload_float_profiles: the
name the call site operations.py line 167 uses is not among the methods the
class defines. -/
theorem uploader_lacks_upload_float_profiles :
    ("upload_float_profiles") ∉ argoDataUploaderMethods := by decide

/-! ## Helper lemmas -/

/-- The FTP attempt loop succeeds exactly when some attempt within the budget,
counted from the given start index, returns ok. -/
theorem ftpDownloadFrom_eq_true (net : Nat → AttemptOutcome) :
    ∀ (remaining start : Nat),
      ftpDownloadFrom net start remaining = true ↔
        ∃ i, i < remaining ∧ net (start + i) = .ok := by
  intro remaining
  induction remaining with
  | zero =>
      intro start
      simp [ftpDownloadFrom]
  | succ n ih =>
      intro start
      unfold ftpDownloadFrom
      cases h : net start with
      | ok =>
          simp only [true_iff]
          exact ⟨0, Nat.succ_pos n, by simpa using h⟩
      | permError =>
          rw [ih (start + 1)]
          constructor
          · rintro ⟨i, hi, hok⟩
            exact ⟨i + 1, by omega, by simpa [Nat.add_assoc, Nat.add_comm 1 i] using hok⟩
          · rintro ⟨i, hi, hok⟩
            cases i with
            | zero => simp [h] at hok
            | succ j =>
                exact ⟨j, by omega, by simpa [Nat.add_assoc, Nat.add_comm 1 j] using hok⟩
      | transientError =>
          rw [ih (start + 1)]
          constructor
          · rintro ⟨i, hi, hok⟩
            exact ⟨i + 1, by omega, by simpa [Nat.add_assoc, Nat.add_comm 1 i] using hok⟩
          · rintro ⟨i, hi, hok⟩
            cases i with
            | zero => simp [h] at hok
            | succ j =>
                exact ⟨j, by omega, by simpa [Nat.add_assoc, Nat.add_comm 1 j] using hok⟩

/-! ## Claims -/

/-- C1: the claim says every call of upload_to_database performs the metadata
upsert, the profile batch upsert and the position update inside one
transaction, rolling back on failure. On the code, the transaction and the
rollback exist, but the profile step is `db_uploader.upload_float_profiles`,
an attribute ArgoDataUploader never defines (the module docstring names it as
the upload path, so the code contradicts its own documentation): every call
raises before reaching the commit and the rollback leaves the store
unchanged, so the three writes never commit at all. -/
theorem upload_to_database_always_fails :
    argoDataUploaderMethods.contains ("upload_float_profiles") = false ∧
    ∀ (db : DBState) (floatId : String) (profiles : List ProfileData)
      (metadata : Option MetadataDict) (now : ℚ),
      ∃ e : PyError,
        upload_to_database db floatId profiles metadata now =
          (Except.error e, db) := by
  refine ⟨by decide, ?_⟩
  intro db floatId profiles metadata now
  cases metadata with
  | none => exact ⟨PyError.attributeError ("upload_float_profiles"), rfl⟩
  | some md =>
      cases h : pyInt? floatId with
      | none =>
          exact ⟨PyError.valueError ("invalid literal for int"),
            by simp [upload_to_database, h]⟩
      | some fidInt =>
          exact ⟨PyError.attributeError ("upload_float_profiles"),
            by simp [upload_to_database, h]⟩

/-- C3 counterexample: when the mandatory {id}_prof.nc fails with a permanent
404 but the optional {id}_meta.nc, {id}_tech.nc and {id}_Rtraj.nc succeed,
ArgoSyncWorker.sync still reports the float as successfully synced, where the
claim requires a float-level failure. -/
theorem sync_prof404_counterexample :
    ArgoSyncWorker.sync
      { meta := .ok, tech := .ok, prof := .notFound404, rtraj := .ok } = true := by
  decide

/-- C3 amended: the sync result of one float is success exactly when at least
one of the four files downloaded successfully, regardless of which; in
particular an optional-file 404 with a successful {id}_prof.nc is a success,
but a {id}_prof.nc 404 with any other successful file is a success too. -/
theorem sync_success_iff_any_file :
    ∀ o : FloatFiles,
      ArgoSyncWorker.sync o = true ↔
        (o.meta = .ok ∨ o.tech = .ok ∨ o.prof = .ok ∨ o.rtraj = .ok) := by
  intro o
  obtain ⟨m, t, p, r⟩ := o
  cases m <;> cases t <;> cases p <;> cases r <;> decide

/-- C4 counterexample: on a network whose first attempt fails permanently and
whose retries would succeed, FTPDownloader.download_file performs a second
attempt and returns success (the claim says permanent errors are not
retried); on a network whose first attempt fails transiently and whose
retries would succeed, the HTTP _download_file of ArgoSyncWorker.sync makes
exactly one attempt and records failure (the claim says transient errors are
retried up to 3 times). -/
theorem download_retry_counterexample :
    ftpAttemptsFrom netPermThenOk 0 3 = 2 ∧
    FTPDownloader.download_file netPermThenOk 3 = true ∧
    httpDownloadFile netTransientThenOk = false ∧
    httpDownloadAttempts netTransientThenOk = 1 := by
  decide

/-- C4 amended: the FTP downloader retries every error uniformly -- permanent
(error_perm) and transient alike -- up to max_retries attempts (default 3)
with a fixed delay, succeeding exactly when some attempt within the budget
succeeds and recording failure after exhaustion; the HTTP downloader of
ArgoSyncWorker.sync performs no retries at all: its result is decided by the
single first attempt. -/
theorem download_retry_behavior :
    (∀ (net : Nat → AttemptOutcome) (max_retries : Nat),
      FTPDownloader.download_file net max_retries = true ↔
        ∃ i, i < max_retries ∧ net i = .ok) ∧
    (∀ net : Nat → AttemptOutcome,
      (httpDownloadFile net = true ↔ net 0 = .ok) ∧
      httpDownloadAttempts net = 1) := by
  constructor
  · intro net max_retries
    have := ftpDownloadFrom_eq_true net max_retries 0
    simpa [FTPDownloader.download_file] using this
  · intro net
    refine ⟨?_, rfl⟩
    unfold httpDownloadFile
    cases h : net 0 <;> simp

/-- C5 counterexample: an existing manifest file with unparsable JSON content
does not fall back to the empty manifest -- _load_manifest propagates the
JSONDecodeError of json.load. -/
theorem load_manifest_corrupt_counterexample :
    ArgoSyncWorker.load_manifest ManifestFile.corrupt =
      Except.error PyError.jsonDecodeError := rfl

/-- C5 amended: only a missing manifest file falls back to the default empty
manifest; a file that exists but cannot be parsed raises out of
_load_manifest (manifest corruption is fatal to the caller), and a parsable
file returns its content. -/
theorem load_manifest_behavior :
    ArgoSyncWorker.load_manifest ManifestFile.missing =
      Except.ok { downloaded := [], failed := [] } ∧
    ArgoSyncWorker.load_manifest ManifestFile.corrupt =
      Except.error PyError.jsonDecodeError ∧
    ∀ m : Manifest,
      ArgoSyncWorker.load_manifest (ManifestFile.valid m) = Except.ok m :=
  ⟨rfl, rfl, fun _ => rfl⟩

/-- C6 counterexample: on a malformed or unreadable dataset,
parse_aggregate_profiles returns the plain empty profile list -- the very
value a successfully parsed file with no valid profiles returns -- and its
return type carries no ParseError outcome at all. -/
theorem parse_unreadable_counterexample :
    parse_aggregate_profiles ("2902224") ("2902224_prof.nc") 0
      Dataset.unreadable = ([] : List ParsedProfile) := rfl

/-- C6 amended: a malformed or unreadable dataset file makes
parse_aggregate_profiles log the exception and return the empty list, with no
explicit error outcome; the caller cannot distinguish this from a readable
file that yielded zero valid profiles. -/
theorem parse_unreadable_returns_empty :
    ∀ (floatId fileName : String) (now : ℚ),
      parse_aggregate_profiles floatId fileName now Dataset.unreadable = [] :=
  fun _ _ _ => rfl


/-- Destructing a successful processLevel: the fields of the emitted
measurement are the filtered sensor values and the defaulted depth, and not
all four sensors are missing. -/
theorem processLevel_eq_some (lc : LevelCells) (m : Measurement)
    (h : processLevel lc = some m) :
    m.depth = depthVal lc.pres ∧
    m.temperature = sensorVal lc.temp ∧ m.salinity = sensorVal lc.psal ∧
    m.oxygen = sensorVal lc.doxy ∧ m.chlorophyll = sensorVal lc.chla ∧
    ¬(sensorVal lc.temp = none ∧ sensorVal lc.psal = none ∧
      sensorVal lc.doxy = none ∧ sensorVal lc.chla = none) := by
  unfold processLevel at h
  by_cases hc : sensorVal lc.temp = none ∧ sensorVal lc.psal = none ∧
      sensorVal lc.doxy = none ∧ sensorVal lc.chla = none
  · simp [hc] at h
  · simp only [hc, if_neg, if_false, Option.some.injEq] at h
    subst h
    exact ⟨rfl, rfl, rfl, rfl, rfl, hc⟩

/-- Destructing a successful processSlot: the emitted profile holds the
measurements built from the levels, which are nonempty, and the stored
max_depth is the thresholded running maximum. -/
theorem processSlot_eq_some (floatId fileName : String) (now : ℚ) (idx : Nat)
    (slot : ProfileSlot) (p : ParsedProfile)
    (h : processSlot floatId fileName now idx slot = some p) :
    p.measurements = buildMeasurements slot.levels ∧
    p.measurements ≠ [] ∧
    p.max_depth = (if 0 < maxDepthAcc p.measurements then
      some (maxDepthAcc p.measurements) else none) := by
  unfold processSlot at h
  cases hlat : slot.lat with
  | none => rw [hlat] at h; exact absurd h (by simp)
  | some lat =>
      cases hlon : slot.lon with
      | none => rw [hlat, hlon] at h; exact absurd h (by simp)
      | some lon =>
          rw [hlat, hlon] at h
          by_cases hms : buildMeasurements slot.levels = []
          · simp [hms] at h
          · simp only [hms, if_neg, if_false, Option.some.injEq] at h
            subst h
            exact ⟨rfl, hms, rfl⟩

/-- Membership in the parser output comes from a successful processSlot. -/
theorem mem_parse_aggregate_profiles (floatId fileName : String) (now : ℚ)
    (ds : Dataset) (p : ParsedProfile)
    (hp : p ∈ parse_aggregate_profiles floatId fileName now ds) :
    ∃ idx slot, processSlot floatId fileName now idx slot = some p := by
  cases ds with
  | unreadable => exact absurd hp (by simp [parse_aggregate_profiles])
  | readable slots =>
      unfold parse_aggregate_profiles at hp
      rcases List.mem_filterMap.mp hp with ⟨⟨idx, slot⟩, _, hps⟩
      exact ⟨idx, slot, hps⟩

/-- C7: every measurement of every profile produced by
parse_aggregate_profiles has at least one of temperature, salinity, oxygen,
chlorophyll present; and the sentinel filter treats a sensor cell that is
absent, NaN or at least 99999 as missing, so a level with all four sensors
missing can never pass the skip check and never appears in the output. -/
theorem measurements_have_some_sensor (floatId fileName : String) (now : ℚ)
    (ds : Dataset) (p : ParsedProfile) (m : Measurement)
    (hp : p ∈ parse_aggregate_profiles floatId fileName now ds)
    (hm : m ∈ p.measurements) :
    (m.temperature ≠ none ∨ m.salinity ≠ none ∨ m.oxygen ≠ none ∨
      m.chlorophyll ≠ none) ∧
    (∀ c : Option Cell,
      (c = none ∨ c = some none ∨ ∃ v, c = some (some v) ∧ 99999 ≤ v) →
        sensorVal c = none) := by
  constructor
  · rcases mem_parse_aggregate_profiles floatId fileName now ds p hp
      with ⟨idx, slot, hps⟩
    rcases processSlot_eq_some floatId fileName now idx slot p hps
      with ⟨hmeas, _, _⟩
    rw [hmeas] at hm
    rcases List.mem_filterMap.mp hm with ⟨lc, _, hpl⟩
    rcases processLevel_eq_some lc m hpl with ⟨_, ht, hs, ho, hc, hnotall⟩
    by_contra hall
    push_neg at hall
    rcases hall with ⟨h1, h2, h3, h4⟩
    rw [ht] at h1; rw [hs] at h2; rw [ho] at h3; rw [hc] at h4
    exact hnotall ⟨h1, h2, h3, h4⟩
  · intro c hc
    rcases hc with h | h | ⟨v, hv, hge⟩
    · rw [h]; rfl
    · rw [h]; rfl
    · rw [hv]
      show (if v < 99999 then some v else none) = none
      rw [if_neg (not_lt.mpr hge)]

/-- Concrete input for the C7 witness: a profile slot with one level carrying
a valid temperature at 10 decibar and a NaN salinity. -/
def c7Slot : ProfileSlot :=
  { lat := some 5, lon := some 70, cycle := some 1, juld := some 0,
    levels := [{ pres := some (some 10), temp := some (some 25),
                 psal := some none, doxy := none, chla := none }] }

/-- The single measurement the parser retains from c7Slot. -/
def c7Meas : Measurement :=
  { depth := 10, temperature := some 25, salinity := none, oxygen := none,
    chlorophyll := none }

/-- Concrete profile returned by the parser on c7Slot. -/
def c7Profile : ParsedProfile :=
  { float_id := "2902224", cycle_number := 1, profile_time := 0, latitude := 5,
    longitude := 70, measurements := [c7Meas], max_depth := some 10,
    quality_status := "REAL_TIME" }

/-- Witness for C7: the theorem applied to the concrete parse of c7Slot. -/
theorem measurements_have_some_sensor_witness :
    c7Meas.temperature ≠ none ∨ c7Meas.salinity ≠ none ∨
    c7Meas.oxygen ≠ none ∨ c7Meas.chlorophyll ≠ none :=
  (measurements_have_some_sensor ("2902224") ("2902224_prof.nc") 0
    (Dataset.readable [c7Slot]) c7Profile c7Meas
    (by decide) (by decide)).1

/-- The update step of the running maximum is the max operation. -/
theorem if_gt_eq_max (acc d : ℚ) : (if d > acc then d else acc) = max acc d := by
  rcases lt_or_le acc d with h | h
  · rw [if_pos h, max_eq_right h.le]
  · rw [if_neg (not_lt.mpr h), max_eq_left h]

/-- The running maximum of the parser loop is a fold of max over the depths,
started at 0. -/
theorem maxDepthAcc_eq_foldl (ms : List Measurement) :
    maxDepthAcc ms = (ms.map Measurement.depth).foldl max 0 := by
  unfold maxDepthAcc
  rw [List.foldl_map]
  congr 1
  funext acc m
  exact if_gt_eq_max acc m.depth

/-- Folding max distributes over a max in the initial value. -/
theorem foldl_max_max_init (l : List ℚ) :
    ∀ a b : ℚ, l.foldl max (max a b) = max a (l.foldl max b) := by
  induction l with
  | nil => intro a b; rfl
  | cons c l ih =>
      intro a b
      show l.foldl max (max (max a b) c) = max a (l.foldl max (max b c))
      rw [max_assoc, ih a (max b c)]

/-- The initial value bounds the fold of max from below. -/
theorem init_le_foldl_max (l : List ℚ) : ∀ a : ℚ, a ≤ l.foldl max a := by
  induction l with
  | nil => intro a; exact le_refl a
  | cons c l ih =>
      intro a
      exact le_trans (le_max_left a c) (ih (max a c))

/-- Every member bounds the fold of max from below. -/
theorem mem_le_foldl_max (l : List ℚ) (x : ℚ) (hx : x ∈ l) :
    ∀ a : ℚ, x ≤ l.foldl max a := by
  induction l with
  | nil => exact absurd hx (List.not_mem_nil x)
  | cons c l ih =>
      intro a
      rcases List.mem_cons.mp hx with h | h
      · subst h
        exact le_trans (le_max_right a x) (init_le_foldl_max l (max a x))
      · exact ih h (max a c)

/-- An upper bound of the members and the initial value bounds the fold. -/
theorem foldl_max_le_bound (l : List ℚ) (c : ℚ) (hl : ∀ x ∈ l, x ≤ c) :
    ∀ a : ℚ, a ≤ c → l.foldl max a ≤ c := by
  induction l with
  | nil => intro a ha; exact ha
  | cons d l ih =>
      intro a ha
      exact ih (fun x hx => hl x (List.mem_cons_of_mem d hx))
        (max a d) (max_le ha (hl d (List.mem_cons_self d l)))

/-- Concrete input for the C8 counterexample: one profile whose single level
has a NaN pressure but a valid temperature. -/
def c8Slot : ProfileSlot :=
  { lat := some 0, lon := some 0, cycle := some 3, juld := some 0,
    levels := [{ pres := some none, temp := some (some 5), psal := none,
                 doxy := none, chla := none }] }

/-- C8 counterexample: on c8Slot the parser emits a profile with one retained
measurement (at the substituted depth 0.0) whose stored max_depth is null
while the maximum over its measurements is 0 -- refuting both halves of the
claim: max_depth differs from the maximum of the depths, and max_depth is
null although the measurements list is not empty. -/
theorem max_depth_zero_counterexample :
    (parse_aggregate_profiles ("2902224") ("2902224_prof.nc") 0
        (Dataset.readable [c8Slot])).map
      (fun p => (p.measurements.length, p.max_depth,
        specMaxDepth p.measurements)) = [(1, none, some 0)] := by
  decide

/-- C8 amended: every emitted profile has nonempty measurements; its stored
max_depth equals the maximum of the depths over the measurements whenever
some retained depth is positive, but is null whenever every retained depth is
at most 0 (in particular when missing pressure substituted depth 0.0 at every
level), nonempty measurements notwithstanding. -/
theorem max_depth_amended (floatId fileName : String) (now : ℚ)
    (ds : Dataset) (p : ParsedProfile)
    (hp : p ∈ parse_aggregate_profiles floatId fileName now ds) :
    p.measurements ≠ [] ∧
    ((∃ m ∈ p.measurements, 0 < m.depth) →
      p.max_depth = specMaxDepth p.measurements) ∧
    ((∀ m ∈ p.measurements, m.depth ≤ 0) → p.max_depth = none) := by
  rcases mem_parse_aggregate_profiles floatId fileName now ds p hp
    with ⟨idx, slot, hps⟩
  rcases processSlot_eq_some floatId fileName now idx slot p hps
    with ⟨_, hne, hmax⟩
  refine ⟨hne, ?_, ?_⟩
  · rintro ⟨m, hm, hpos⟩
    cases hms : p.measurements with
    | nil => exact absurd hms hne
    | cons m0 rest =>
        rw [hms] at hm hmax
        have hacc : maxDepthAcc (m0 :: rest) =
            max 0 ((rest.map Measurement.depth).foldl max m0.depth) := by
          rw [maxDepthAcc_eq_foldl]
          show (rest.map Measurement.depth).foldl max (max 0 m0.depth) = _
          exact foldl_max_max_init (rest.map Measurement.depth) 0 m0.depth
        have hMpos : 0 < (rest.map Measurement.depth).foldl max m0.depth := by
          rcases List.mem_cons.mp hm with h | h
          · subst h
            exact lt_of_lt_of_le hpos
              (init_le_foldl_max (rest.map Measurement.depth) m.depth)
          · exact lt_of_lt_of_le hpos
              (mem_le_foldl_max (rest.map Measurement.depth) m.depth
                (List.mem_map_of_mem Measurement.depth h) m0.depth)
        rw [hmax, hacc, max_eq_right hMpos.le, if_pos hMpos]
        rfl
  · intro hall
    cases hms : p.measurements with
    | nil => exact absurd hms hne
    | cons m0 rest =>
        rw [hms] at hall hmax
        have hacc : maxDepthAcc (m0 :: rest) =
            max 0 ((rest.map Measurement.depth).foldl max m0.depth) := by
          rw [maxDepthAcc_eq_foldl]
          show (rest.map Measurement.depth).foldl max (max 0 m0.depth) = _
          exact foldl_max_max_init (rest.map Measurement.depth) 0 m0.depth
        have hMle : (rest.map Measurement.depth).foldl max m0.depth ≤ 0 := by
          refine foldl_max_le_bound (rest.map Measurement.depth) 0 ?_ m0.depth
            (hall m0 (List.mem_cons_self m0 rest))
          intro x hx
          rcases List.mem_map.mp hx with ⟨m, hm, hxm⟩
          rw [← hxm]
          exact hall m (List.mem_cons_of_mem m0 hm)
        rw [hmax, hacc, max_eq_left hMle]
        rw [if_neg (lt_irrefl 0)]

/-- Concrete input for the C8 witness: one profile with a valid pressure of
100 decibar and a valid temperature. -/
def c8DeepSlot : ProfileSlot :=
  { lat := some 1, lon := some 2, cycle := some 9, juld := some 0,
    levels := [{ pres := some (some 100), temp := some (some 2), psal := none,
                 doxy := none, chla := none }] }

/-- The measurement the parser retains from c8DeepSlot. -/
def c8DeepMeas : Measurement :=
  { depth := 100, temperature := some 2, salinity := none, oxygen := none,
    chlorophyll := none }

/-- The profile the parser emits on c8DeepSlot. -/
def c8DeepProfile : ParsedProfile :=
  { float_id := "2902225", cycle_number := 9, profile_time := 0, latitude := 1,
    longitude := 2, measurements := [c8DeepMeas], max_depth := some 100,
    quality_status := "REAL_TIME" }

/-- Witness for C8 amended: applied at the concrete parse of c8DeepSlot. -/
theorem max_depth_amended_witness :
    c8DeepProfile.measurements ≠ [] ∧
    c8DeepProfile.max_depth = specMaxDepth c8DeepProfile.measurements :=
  ⟨(max_depth_amended ("2902225") ("2902225_prof.nc") 0
      (Dataset.readable [c8DeepSlot]) c8DeepProfile (by decide)).1,
   (max_depth_amended ("2902225") ("2902225_prof.nc") 0
      (Dataset.readable [c8DeepSlot]) c8DeepProfile (by decide)).2.1
     ⟨c8DeepMeas, by decide, by decide⟩⟩

/-- C10: a depth level whose pressure cell is absent, NaN, or at least the
99999 sentinel, but which carries at least one valid sensor value, is
retained by the level loop with depth substituted by 0.0 -- it is never
dropped on account of the missing pressure, and its 0.0 depth is exactly the
value a surface measurement would carry. -/
theorem missing_pressure_level_retained (levels : List LevelCells)
    (lc : LevelCells) (hmem : lc ∈ levels)
    (hpres : lc.pres = none ∨ lc.pres = some none ∨
      ∃ v, lc.pres = some (some v) ∧ 99999 ≤ v)
    (hsensor : sensorVal lc.temp ≠ none ∨ sensorVal lc.psal ≠ none ∨
      sensorVal lc.doxy ≠ none ∨ sensorVal lc.chla ≠ none) :
    ∃ m, processLevel lc = some m ∧ m.depth = 0 ∧
      m ∈ buildMeasurements levels := by
  have hpv : sensorVal lc.pres = none := by
    rcases hpres with h | h | ⟨v, hv, hge⟩
    · rw [h]; rfl
    · rw [h]; rfl
    · rw [hv]
      show (if v < 99999 then some v else none) = none
      rw [if_neg (not_lt.mpr hge)]
  have hnotall : ¬(sensorVal lc.temp = none ∧ sensorVal lc.psal = none ∧
      sensorVal lc.doxy = none ∧ sensorVal lc.chla = none) := by
    rintro ⟨h1, h2, h3, h4⟩
    rcases hsensor with h | h | h | h
    · exact h h1
    · exact h h2
    · exact h h3
    · exact h h4
  refine ⟨Measurement.mk (depthVal lc.pres) (sensorVal lc.temp)
    (sensorVal lc.psal) (sensorVal lc.doxy) (sensorVal lc.chla), ?_, ?_, ?_⟩
  · unfold processLevel
    rw [if_neg hnotall]
  · show depthVal lc.pres = 0
    unfold depthVal
    rw [hpv]
    rfl
  · refine List.mem_filterMap.mpr ⟨lc, hmem, ?_⟩
    unfold processLevel
    rw [if_neg hnotall]

/-- Concrete level for the C10 witness: NaN pressure, valid oxygen. -/
def c10Level : LevelCells :=
  { pres := some none, temp := none, psal := none, doxy := some (some 210),
    chla := none }

/-- Witness for C10: the theorem applied at the concrete level list. -/
theorem missing_pressure_level_retained_witness :
    ∃ m, processLevel c10Level = some m ∧ m.depth = 0 ∧
      m ∈ buildMeasurements [c10Level] :=
  missing_pressure_level_retained [c10Level] c10Level
    (List.mem_singleton_self c10Level)
    (Or.inr (Or.inl rfl))
    (Or.inr (Or.inr (Or.inl (by decide))))

/-- A batch of one profile with a parsable float_id and nonempty measurements
performs exactly one upsert. -/
theorem upload_profiles_batch_singleton (now : ℚ) (t : ProfilesTable)
    (p : ProfileData) (fid : Int) (hfid : pyInt? p.float_id = some fid)
    (hm : p.measurements ≠ []) :
    upload_profiles_batch now t [p] =
      (upsertProfileRow t (rowOfProfile now fid p), 1) := by
  unfold upload_profiles_batch
  rw [if_neg (by simp)]
  simp only [List.mapM_cons, List.mapM_nil, hfid, Option.pure_def,
    Option.bind_eq_bind, Option.some_bind]
  simp [List.zip, hm]

/-- The row update of the upsert keeps the conflict key columns. -/
theorem rowMatchesKey_update (fid cyc : Int) (r row : ProfileRow) :
    rowMatchesKey fid cyc
      { row with profile_time := r.profile_time, surface_lat := r.surface_lat,
                 surface_lon := r.surface_lon, max_depth := r.max_depth,
                 quality_flag := r.quality_flag,
                 measurements := r.measurements } =
      rowMatchesKey fid cyc row := rfl

/-- Upserting into a table without the key appends the new row. -/
theorem upsert_absent (t : ProfilesTable) (r : ProfileRow)
    (ht : t.any (rowMatchesKey r.float_id r.cycle) = false) :
    upsertProfileRow t r = t ++ [r] := by
  simp [upsertProfileRow, ht]

/-- Upserting into a table holding the key updates the matching rows in
place. -/
theorem upsert_present (t : ProfilesTable) (r : ProfileRow)
    (ht : t.any (rowMatchesKey r.float_id r.cycle) = true) :
    upsertProfileRow t r = t.map (fun row =>
      if rowMatchesKey r.float_id r.cycle row then
        { row with profile_time := r.profile_time, surface_lat := r.surface_lat,
                   surface_lon := r.surface_lon, max_depth := r.max_depth,
                   quality_flag := r.quality_flag,
                   measurements := r.measurements }
      else row) := by
  simp [upsertProfileRow, ht]

/-- The in-place update of the upsert keeps the per-key row count. -/
theorem countP_map_update (t : ProfilesTable) (r : ProfileRow) (fid cyc : Int) :
    (t.map (fun row =>
      if rowMatchesKey r.float_id r.cycle row then
        { row with profile_time := r.profile_time, surface_lat := r.surface_lat,
                   surface_lon := r.surface_lon, max_depth := r.max_depth,
                   quality_flag := r.quality_flag,
                   measurements := r.measurements }
      else row)).countP (rowMatchesKey fid cyc) =
      t.countP (rowMatchesKey fid cyc) := by
  rw [List.countP_map]
  apply List.countP_congr
  intro row _
  simp only [Function.comp_apply]
  by_cases h : rowMatchesKey r.float_id r.cycle row = true
  · rw [if_pos h, rowMatchesKey_update]
  · rw [if_neg h]

/-- C2: uploading a profile with the same (float_id, cycle_number) key twice
through the batch upsert, with different values the second time, leaves
exactly one row for that key, and that row carries the values -- including
the measurements document -- of the second upload: the ON CONFLICT clause
updates in place, it neither errors nor duplicates. -/
theorem upload_profiles_batch_second_wins
    (t : ProfilesTable) (p p' : ProfileData) (now now' : ℚ) (fid : Int)
    (hfid : pyInt? p.float_id = some fid)
    (hsame : p'.float_id = p.float_id)
    (hcyc : p'.cycle_number = p.cycle_number)
    (hm : p.measurements ≠ [])
    (hm' : p'.measurements ≠ [])
    (habs : t.countP (rowMatchesKey fid p.cycle_number) = 0) :
    ((upload_profiles_batch now'
        (upload_profiles_batch now t [p]).1 [p']).1.countP
      (rowMatchesKey fid p.cycle_number) = 1) ∧
    (∀ r ∈ (upload_profiles_batch now'
        (upload_profiles_batch now t [p]).1 [p']).1,
      rowMatchesKey fid p.cycle_number r = true →
        r.profile_time = p'.profile_time ∧ r.surface_lat = p'.latitude ∧
        r.surface_lon = p'.longitude ∧ r.max_depth = p'.max_depth ∧
        r.quality_flag = p'.quality_status ∧
        r.measurements = p'.measurements) := by
  have hfid' : pyInt? p'.float_id = some fid := by rw [hsame]; exact hfid
  have hanyt : t.any (rowMatchesKey fid p.cycle_number) = false := by
    rw [List.any_eq_false]
    intro row hrow
    exact List.countP_eq_zero.mp habs row hrow
  have hrow1 : rowMatchesKey fid p.cycle_number (rowOfProfile now fid p)
      = true := by
    simp [rowMatchesKey, rowOfProfile]
  rw [upload_profiles_batch_singleton now t p fid hfid hm]
  have ht1 : upsertProfileRow t (rowOfProfile now fid p) =
      t ++ [rowOfProfile now fid p] :=
    upsert_absent t (rowOfProfile now fid p) hanyt
  rw [upload_profiles_batch_singleton now'
    (upsertProfileRow t (rowOfProfile now fid p)) p' fid hfid' hm']
  have hkeys : rowMatchesKey (rowOfProfile now' fid p').float_id
      (rowOfProfile now' fid p').cycle =
      rowMatchesKey fid p.cycle_number := by
    show rowMatchesKey fid p'.cycle_number = rowMatchesKey fid p.cycle_number
    rw [hcyc]
  have hany1 : (upsertProfileRow t (rowOfProfile now fid p)).any
      (rowMatchesKey (rowOfProfile now' fid p').float_id
        (rowOfProfile now' fid p').cycle) = true := by
    rw [hkeys, ht1, List.any_eq_true]
    exact ⟨rowOfProfile now fid p,
      List.mem_append_right t (List.mem_singleton_self _), hrow1⟩
  have ht2 := upsert_present (upsertProfileRow t (rowOfProfile now fid p))
    (rowOfProfile now' fid p') hany1
  constructor
  · rw [ht2, countP_map_update, ht1, List.countP_append, habs]
    simp [hrow1]
  · intro r hr hkey
    rw [ht2] at hr
    rcases List.mem_map.mp hr with ⟨row, _, hfr⟩
    by_cases hkrow : rowMatchesKey (rowOfProfile now' fid p').float_id
        (rowOfProfile now' fid p').cycle row = true
    · rw [if_pos hkrow] at hfr
      rw [← hfr]
      exact ⟨rfl, rfl, rfl, rfl, rfl, rfl⟩
    · rw [if_neg hkrow] at hfr
      exfalso
      apply hkrow
      rw [hkeys, hfr]
      exact hkey

/-- First upload of the C2 witness cycle. -/
def c2ProfA : ProfileData :=
  { float_id := "2902224", cycle_number := 7, profile_time := 100,
    latitude := 1, longitude := 2,
    measurements := [{ depth := 10, temperature := some 20, salinity := some 35,
                       oxygen := none, chlorophyll := none }],
    max_depth := some 10, quality_status := some "REAL_TIME" }

/-- Second upload of the same (float_id, cycle_number) with different values. -/
def c2ProfB : ProfileData :=
  { float_id := "2902224", cycle_number := 7, profile_time := 200,
    latitude := 1, longitude := 2,
    measurements := [{ depth := 12, temperature := some 21, salinity := some 34,
                       oxygen := some 180, chlorophyll := none }],
    max_depth := some 12, quality_status := some "DELAYED" }

/-- Witness for C2: applied to the two concrete uploads into an empty table. -/
theorem upload_profiles_batch_second_wins_witness :
    ((upload_profiles_batch 1
        (upload_profiles_batch 0 [] [c2ProfA]).1 [c2ProfB]).1.countP
      (rowMatchesKey 2902224 7) = 1) ∧
    (∀ r ∈ (upload_profiles_batch 1
        (upload_profiles_batch 0 [] [c2ProfA]).1 [c2ProfB]).1,
      rowMatchesKey 2902224 7 r = true →
        r.profile_time = c2ProfB.profile_time ∧
        r.surface_lat = c2ProfB.latitude ∧
        r.surface_lon = c2ProfB.longitude ∧
        r.max_depth = c2ProfB.max_depth ∧
        r.quality_flag = c2ProfB.quality_status ∧
        r.measurements = c2ProfB.measurements) :=
  upload_profiles_batch_second_wins [] c2ProfA c2ProfB 0 1 2902224
    (by decide) rfl rfl (by decide) (by decide) rfl

/-- The bookkeeping loop always emits at least its final save. -/
theorem processResults_ne_nil :
    ∀ (results : List (Option (String × Bool))) (m : Manifest)
      (newc failc : Nat), processResults results m newc failc ≠ [] := by
  intro results
  induction results with
  | nil => intro m newc failc; simp [processResults]
  | cons r rest ih =>
      intro m newc failc
      cases r with
      | none => exact ih m newc (failc + 1)
      | some fp =>
          obtain ⟨fid, success⟩ := fp
          simp only [processResults]
          intro h
          rcases List.append_eq_nil.mp h with ⟨-, h2⟩
          exact ih _ _ _ h2

/-- Every event the bookkeeping loop emits is a manifest save. -/
theorem processResults_all_save :
    ∀ (results : List (Option (String × Bool))) (m : Manifest)
      (newc failc : Nat),
      ∀ e ∈ processResults results m newc failc, e.isSave = true := by
  intro results
  induction results with
  | nil =>
      intro m newc failc e he
      rcases List.mem_singleton.mp he with rfl
      rfl
  | cons r rest ih =>
      intro m newc failc e he
      cases r with
      | none => exact ih m newc (failc + 1) e he
      | some fp =>
          obtain ⟨fid, success⟩ := fp
          simp only [processResults] at he
          rcases List.mem_append.mp he with h | h
          · by_cases hc : ((if success then newc + 1 else newc) +
                (if success then failc else failc + 1)) % 10 = 0
            · rw [if_pos hc] at h
              rcases List.mem_singleton.mp h with rfl
              rfl
            · rw [if_neg hc] at h
              exact absurd h (List.not_mem_nil e)
          · exact ih _ _ _ e h

/-- The loop ends with the unconditional save of the fully updated manifest. -/
theorem processResults_getLast :
    ∀ (results : List (Option (String × Bool))) (m : Manifest)
      (newc failc : Nat),
      (processResults results m newc failc).getLast? =
        some (SyncEvent.saveManifest (finalManifest results m)) := by
  intro results
  induction results with
  | nil => intro m newc failc; rfl
  | cons r rest ih =>
      intro m newc failc
      cases r with
      | none => exact ih m newc (failc + 1)
      | some fp =>
          obtain ⟨fid, success⟩ := fp
          simp only [processResults]
          rw [List.getLast?_append_of_ne_nil _ (processResults_ne_nil rest _ _ _)]
          exact ih _ _ _

/-- The bookkeeping loop emits at least one save. -/
theorem processResults_countP_pos :
    ∀ (results : List (Option (String × Bool))) (m : Manifest)
      (newc failc : Nat),
      1 ≤ (processResults results m newc failc).countP SyncEvent.isSave := by
  intro results
  induction results with
  | nil => intro m newc failc; rfl
  | cons r rest ih =>
      intro m newc failc
      cases r with
      | none => exact ih m newc (failc + 1)
      | some fp =>
          obtain ⟨fid, success⟩ := fp
          simp only [processResults]
          rw [List.countP_append]
          exact le_add_of_nonneg_of_le (Nat.zero_le _) (ih _ _ _)

/-- With at least ten completed results and no task exceptions, the loop
saves at least twice: once when the processed count reaches a multiple of
ten, and the final unconditional save. -/
theorem processResults_two_saves :
    ∀ (results : List (Option (String × Bool))) (m : Manifest)
      (newc failc : Nat),
      (∀ r ∈ results, r.isSome) → newc + failc < 10 →
      10 ≤ newc + failc + results.length →
      2 ≤ (processResults results m newc failc).countP SyncEvent.isSave := by
  intro results
  induction results with
  | nil =>
      intro m newc failc _ hlt hge
      simp only [List.length_nil] at hge
      omega
  | cons r rest ih =>
      intro m newc failc hsome hlt hge
      cases r with
      | none =>
          exact absurd (hsome none (List.mem_cons_self _ _)) (by simp)
      | some fp =>
          obtain ⟨fid, success⟩ := fp
          simp only [processResults]
          rw [List.countP_append]
          have hsum : (if success then newc + 1 else newc) +
              (if success then failc else failc + 1) = newc + failc + 1 := by
            cases success <;> simp <;> omega
          by_cases hc : ((if success then newc + 1 else newc) +
              (if success then failc else failc + 1)) % 10 = 0
          · rw [if_pos hc]
            have h1 : (List.countP SyncEvent.isSave
                [SyncEvent.saveManifest (manifestStep m fid success)]) = 1 := rfl
            rw [h1]
            have := processResults_countP_pos rest (manifestStep m fid success)
              (if success then newc + 1 else newc)
              (if success then failc else failc + 1)
            omega
          · rw [if_neg hc]
            simp only [List.countP_nil, Nat.zero_add]
            refine ih _ _ _ (fun x hx => hsome x (List.mem_cons_of_mem _ hx))
              ?_ ?_
            · rw [hsum] at hc ⊢
              simp only [List.length_cons] at hge
              omega
            · rw [hsum]
              simp only [List.length_cons] at hge
              omega

/-- C9 amended: the manifest is saved only by the bookkeeping loop that runs
after the awaited gather has completed every download: the trace is the
download events followed exclusively by save events; the loop saves whenever
the processed (non-exception) count reaches a multiple of 10 -- at least
twice for ten or more exception-free results -- and ends with the
unconditional save of the fully updated manifest. Because no save precedes
any download, a crash during the download phase loses the whole run's
download progress, not at most 10 floats of it. -/
theorem manifest_saves_after_downloads
    (results : List (Option (String × Bool))) (m0 : Manifest) :
    syncAllTrace results m0 =
      downloadEvents results ++ processResults results m0 0 0 ∧
    (∀ e ∈ downloadEvents results, e.isDownload = true) ∧
    (∀ e ∈ processResults results m0 0 0, e.isSave = true) ∧
    (processResults results m0 0 0).getLast? =
      some (SyncEvent.saveManifest (finalManifest results m0)) ∧
    (10 ≤ results.length → (∀ r ∈ results, r.isSome) →
      2 ≤ (processResults results m0 0 0).countP SyncEvent.isSave) := by
  refine ⟨rfl, ?_, processResults_all_save results m0 0 0,
    processResults_getLast results m0 0 0, ?_⟩
  · intro e he
    rcases List.mem_filterMap.mp he with ⟨r, -, hr⟩
    cases r with
    | none => exact absurd hr (by simp)
    | some fp =>
        simp only [Option.map_some'] at hr
        rw [← Option.some.inj hr]
        rfl
  · intro hlen hsome
    exact processResults_two_saves results m0 0 0 hsome (by omega) (by omega)

/-- Fifteen pending floats whose download tasks all complete successfully. -/
def results15 : List (Option (String × Bool)) :=
  (List.range 15).map (fun i => some ((Nat.repr i), true))

/-- C9 counterexample: in the run over fifteen floats, the trace prefix
holding all fifteen completed downloads contains no save at all, so a crash
at that point loses fifteen floats of progress -- more than the K = 10 the
claim allows for a crash at any point. -/
theorem manifest_save_counterexample :
    lostAt ((syncAllTrace results15
      { downloaded := [], failed := [] }).take 15) = 15 ∧ 10 < 15 := by
  decide

/-- Witness for C9 amended: applied to the fifteen-float run. -/
theorem manifest_saves_after_downloads_witness :
    2 ≤ (processResults results15
      { downloaded := [], failed := [] } 0 0).countP SyncEvent.isSave :=
  (manifest_saves_after_downloads results15
    { downloaded := [], failed := [] }).2.2.2.2 (by decide) (by decide)
